import Mathlib

/-!
Shallow embedding of the Command Dispatch Core of the voice-assistant
repository: the wake-word gate, the handler registry with first-match
selection, the configuration data model with its validation, and the
orchestrator's per-command error boundary.

Python strings are modelled as Lean `String`; the Python primitives
`str.lower`, `str.strip`, `str.startswith`, slicing `s[n:]`, `len`, and
the substring operator `in` are embedded as list-of-characters
operations below.  Python exceptions are modelled by the `PyExc` type
(one constructor per exception class that the dispatch core can raise
or catch), and fallible Python code returns `Except PyExc α`.
-/

set_option autoImplicit false

namespace VoiceAssistant

/-- Embedding of Python `str.lower()` (character-wise case folding). -/
def pyLower (s : String) : String := ⟨s.data.map Char.toLower⟩

/-- Embedding of Python `str.strip()`: remove leading and trailing whitespace. -/
def pyStrip (s : String) : String :=
  ⟨((s.data.dropWhile Char.isWhitespace).reverse.dropWhile Char.isWhitespace).reverse⟩

/-- Embedding of Python `s.startswith(pre)`. -/
def pyStartsWith (s pre : String) : Bool := pre.data.isPrefixOf s.data

/-- Embedding of the Python slice `s[n:]` (indices are code points). -/
def pySliceFrom (s : String) (n : Nat) : String := ⟨s.data.drop n⟩

/-- Embedding of Python `len(s)` (number of code points). -/
def pyLen (s : String) : Nat := s.data.length

/-- Embedding of the Python substring test `sub in s`, on character lists. -/
def pyInAux (sub : List Char) : List Char → Bool
  | [] => sub.isEmpty
  | c :: rest => sub.isPrefixOf (c :: rest) || pyInAux sub rest

/-- Embedding of the Python substring operator `sub in s`. -/
def pyIn (sub s : String) : Bool := pyInAux sub.data s.data

/-- The exception classes the dispatch core raises or catches
(`core/exceptions.py` plus Python's built-in `TypeError`); every
constructor carries the exception's message (`str(e)`). -/
inductive PyExc where
  | configurationError (message : String)
  | commandExecutionError (message : String)
  | typeError (message : String)
  | otherExc (message : String)
deriving DecidableEq, Repr

deriving instance DecidableEq for Except

/-- `str(e)`: the message carried by an exception. -/
def PyExc.message : PyExc → String
  | .configurationError m => m
  | .commandExecutionError m => m
  | .typeError m => m
  | .otherExc m => m

/-! ## `commands/base.py`: `CommandRegistry`

A registered handler is an abstract value of a type `H`; the two
operations a handler contributes to dispatch, `can_handle` and
`execute`, are passed to the registry operations as functions on `H`
(the registry consults handlers only through them).  `execute` also
receives the optional context dictionary, of abstract type `Ctx`. -/

structure CommandRegistry (H : Type) where
  commands : List H
  wake_word : String
deriving DecidableEq, Repr

/-- `CommandRegistry.__init__`: empty handler list, wake word lowercased
(the source applies only `.lower()` to the constructor argument). -/
def mkCommandRegistry (H : Type) (wake_word : String) : CommandRegistry H :=
  { commands := [], wake_word := pyLower wake_word }

/-- `CommandRegistry.register`: append the handler to the list. -/
def register {H : Type} (r : CommandRegistry H) (command : H) : CommandRegistry H :=
  { r with commands := r.commands ++ [command] }

/-- `CommandRegistry.unregister`: if the handler is present, remove its
first occurrence; otherwise do nothing. -/
def unregister {H : Type} [DecidableEq H] (r : CommandRegistry H) (command : H) :
    CommandRegistry H :=
  if command ∈ r.commands then { r with commands := r.commands.erase command } else r

/-- `CommandRegistry.has_wake_word`: lowercase and trim the text, then
test whether it starts with the wake word. -/
def has_wake_word {H : Type} (r : CommandRegistry H) (command : String) : Bool :=
  pyStartsWith (pyStrip (pyLower command)) r.wake_word

/-- `CommandRegistry.remove_wake_word`: lowercase and trim; if the
result starts with the wake word, drop `len(wake_word)` characters and
trim again, else return it unchanged. -/
def remove_wake_word {H : Type} (r : CommandRegistry H) (command : String) : String :=
  let command_lower := pyStrip (pyLower command)
  if pyStartsWith command_lower r.wake_word then
    pyStrip (pySliceFrom command_lower (pyLen r.wake_word))
  else
    command_lower

/-- The `for` loop in `get_handler`: first handler whose `can_handle`
accepts `actual_command`. -/
def findFirstHandler {H : Type} (canHandle : H → String → Bool) :
    List H → String → Option H
  | [], _ => none
  | c :: rest, actual => if canHandle c actual then some c else findFirstHandler canHandle rest actual

/-- `CommandRegistry.get_handler`: `none` without the wake word,
otherwise the first registered handler accepting the stripped text. -/
def get_handler {H : Type} (canHandle : H → String → Bool) (r : CommandRegistry H)
    (command : String) : Option H :=
  if has_wake_word r command then
    findFirstHandler canHandle r.commands (remove_wake_word r command)
  else
    none

/-- Message of the missing-wake-word `CommandExecutionError`. -/
def missingWakeWordMsg (wake command : String) : String :=
  "Command must start with wake word " ++ wake ++ ": " ++ command

/-- Message of the no-handler-found `CommandExecutionError`. -/
def noHandlerMsg (command : String) : String :=
  "No handler found for command: " ++ command

/-- Message of the wrapped handler-failure `CommandExecutionError`. -/
def failedExecMsg (original : String) : String :=
  "Failed to execute command: " ++ original

/-- `CommandRegistry.execute_command`: missing-wake-word error if the
wake word is absent; no-handler error if no handler matches; otherwise
run the selected handler's `execute` on the stripped text and re-wrap
any exception it raises into a `CommandExecutionError` whose message
appends the original message. -/
def execute_command {H Ctx : Type} (canHandle : H → String → Bool)
    (exec : H → String → Option Ctx → Except PyExc String)
    (r : CommandRegistry H) (command : String) (context : Option Ctx) :
    Except PyExc String :=
  if ¬ has_wake_word r command then
    .error (.commandExecutionError (missingWakeWordMsg r.wake_word command))
  else
    match get_handler canHandle r command with
    | none => .error (.commandExecutionError (noHandlerMsg command))
    | some handler =>
      match exec handler (remove_wake_word r command) context with
      | .ok result => .ok result
      | .error e => .error (.commandExecutionError (failedExecMsg (PyExc.message e)))

/-! ## `config/settings.py`: configuration data model

Python dictionaries appearing in the external (JSON-shaped) form are
embedded as structures with `Option` fields (`None` = key absent, as
consumed by `dict.get(key, default)` / keyword expansion with
defaults); the string-to-string shortcut mapping is an association
list looked up by its first matching key. -/

structure SmartDevice where
  name : String
  device_id : String
  ip_address : String
  local_key : String
  device_type : String
deriving DecidableEq, Repr

/-- `SmartDevice.__init__` + `__post_init__`: construction fails with a
`ConfigurationError` when `all([name, device_id, ip_address, local_key])`
is false, i.e. when any of the four is the empty (falsy) string.
`device_type` defaults to `"outlet"` at call sites. -/
def SmartDevice.init (name device_id ip_address local_key device_type : String) :
    Except PyExc SmartDevice :=
  if name = "" ∨ device_id = "" ∨ ip_address = "" ∨ local_key = "" then
    .error (.configurationError "All device fields are required")
  else
    .ok { name := name, device_id := device_id, ip_address := ip_address,
          local_key := local_key, device_type := device_type }

structure AssistantSettings where
  speech_timeout : Int
  phrase_time_limit : Int
  language : String
  log_level : String
  screenshots_folder : String
  wake_word : String
deriving DecidableEq, Repr

/-- The log levels accepted by `AssistantSettings.__post_init__`. -/
def validLogLevels : List String := ["DEBUG", "INFO", "WARNING", "ERROR", "CRITICAL"]

/-- `AssistantSettings.__init__` + `__post_init__`: timeouts must be
strictly positive and the log level a member of the fixed set.
The field defaults (`5`, `5`, `"id-ID"`, `"INFO"`, `"screenshots"`,
`"peter"`) are supplied at call sites. -/
def AssistantSettings.init (speech_timeout phrase_time_limit : Int)
    (language log_level screenshots_folder wake_word : String) :
    Except PyExc AssistantSettings :=
  if speech_timeout ≤ 0 ∨ phrase_time_limit ≤ 0 then
    .error (.configurationError "Timeout values must be positive")
  else if ¬ log_level ∈ validLogLevels then
    .error (.configurationError "Invalid log level")
  else
    .ok { speech_timeout := speech_timeout, phrase_time_limit := phrase_time_limit,
          language := language, log_level := log_level,
          screenshots_folder := screenshots_folder, wake_word := wake_word }

structure Configuration where
  smart_devices : List SmartDevice
  settings : AssistantSettings
  application_shortcuts : List (String × String)
deriving DecidableEq, Repr

/-- One entry of the `smart_devices` list in the external form: a dict
whose keys may each be absent. -/
structure DeviceData where
  name : Option String
  device_id : Option String
  ip_address : Option String
  local_key : Option String
  device_type : Option String
deriving DecidableEq, Repr

/-- The `settings` dict of the external form. -/
structure SettingsData where
  speech_timeout : Option Int
  phrase_time_limit : Option Int
  language : Option String
  log_level : Option String
  screenshots_folder : Option String
  wake_word : Option String
deriving DecidableEq, Repr

/-- The top-level external (JSON-shaped) form: three sections, each of
which `from_dict` reads with `data.get(key, default)`. -/
structure ConfigData where
  smart_devices : Option (List DeviceData)
  settings : Option SettingsData
  application_shortcuts : Option (List (String × String))
deriving DecidableEq, Repr

/-- `SmartDevice(**device)`: a missing required keyword raises
`TypeError`; an absent `device_type` falls back to its default
`"outlet"`; then `__post_init__` validation runs. -/
def SmartDevice.fromData (d : DeviceData) : Except PyExc SmartDevice :=
  match d.name, d.device_id, d.ip_address, d.local_key with
  | some n, some i, some a, some k => SmartDevice.init n i a k (d.device_type.getD "outlet")
  | _, _, _, _ => .error (.typeError "missing required positional argument")

/-- `AssistantSettings(**settings_data)`: every absent key falls back to
its field default, then `__post_init__` validation runs. -/
def AssistantSettings.fromData (d : SettingsData) : Except PyExc AssistantSettings :=
  AssistantSettings.init (d.speech_timeout.getD 5) (d.phrase_time_limit.getD 5)
    (d.language.getD "id-ID") (d.log_level.getD "INFO")
    (d.screenshots_folder.getD "screenshots") (d.wake_word.getD "peter")

/-- `Configuration.from_dict`: parse devices, settings and shortcuts
(each section defaulting to empty when absent); a `TypeError` escaping
the body is re-raised as a `ConfigurationError`, every other exception
propagates unchanged. -/
def Configuration.from_dict (data : ConfigData) : Except PyExc Configuration :=
  let body : Except PyExc Configuration := do
    let smart_devices ← (data.smart_devices.getD []).mapM SmartDevice.fromData
    let settings ← AssistantSettings.fromData
      (data.settings.getD { speech_timeout := none, phrase_time_limit := none,
                            language := none, log_level := none,
                            screenshots_folder := none, wake_word := none })
    .ok { smart_devices := smart_devices, settings := settings,
          application_shortcuts := data.application_shortcuts.getD [] }
  match body with
  | .error (.typeError m) => .error (.configurationError ("Invalid configuration format: " ++ m))
  | other => other

/-- `Configuration.to_dict`: serialize every device field, the five
settings keys `speech_timeout`, `phrase_time_limit`, `language`,
`log_level`, `screenshots_folder` (the source emits no `wake_word`
key), and the shortcut mapping unchanged. -/
def Configuration.to_dict (c : Configuration) : ConfigData :=
  { smart_devices := some (c.smart_devices.map fun d =>
      { name := some d.name, device_id := some d.device_id,
        ip_address := some d.ip_address, local_key := some d.local_key,
        device_type := some d.device_type }),
    settings := some
      { speech_timeout := some c.settings.speech_timeout,
        phrase_time_limit := some c.settings.phrase_time_limit,
        language := some c.settings.language,
        log_level := some c.settings.log_level,
        screenshots_folder := some c.settings.screenshots_folder,
        wake_word := none },
    application_shortcuts := some c.application_shortcuts }

/-- Python `dict.get(key)` on the shortcut mapping: the value at the
first matching key, `none` when absent. -/
def dictGet : List (String × String) → String → Option String
  | [], _ => none
  | (k, v) :: rest, key => if k = key then some v else dictGet rest key

/-- `ConfigManager.get_application_command`: look the lowercased query
up in the aggregate's shortcut mapping. -/
def get_application_command (config : Configuration) (app_name : String) : Option String :=
  dictGet config.application_shortcuts (pyLower app_name)

/-! ## `core/assistant.py`: the per-command error boundary -/

/-- `VoiceAssistant._process_command_safely`: run the registry call
inside `try`; success (truthy or falsy result) is logged and the
function returns `None`; an escaping `CommandExecutionError` is caught
by the first `except` clause, any other exception by the second — the
unit of work always returns normally.  The argument is the outcome of
the `execute_command` call it wraps. -/
def processCommandSafely (call : Except PyExc String) : Except PyExc Unit :=
  match call with
  | .ok _result => .ok ()
  | .error (.commandExecutionError _) => .ok ()
  | .error _ => .ok ()

/-! ## Concrete fixtures (handlers, registries, configurations used to
instantiate the general theorems) -/

/-- Scenario-C handler behaviour: handler `1` matches the substring
`"lampu"`, every other handler matches `"lampu nyala"`. -/
def canC (h : Nat) (s : String) : Bool :=
  if h = 1 then pyIn "lampu" s else pyIn "lampu nyala" s

/-- A `can_handle` that accepts everything. -/
def canAll : Nat → String → Bool := fun _ _ => true

/-- An `execute` that always succeeds. -/
def execOk : Nat → String → Option Unit → Except PyExc String := fun _ _ _ => .ok "done"

/-- An `execute` that always raises. -/
def execBoom : Nat → String → Option Unit → Except PyExc String :=
  fun _ _ _ => .error (.otherExc "boom")

/-- Empty registry with wake word `"peter"`. -/
def regP : CommandRegistry Nat := mkCommandRegistry Nat "peter"

/-- Registry with the single handler `1`. -/
def regOne : CommandRegistry Nat := register (mkCommandRegistry Nat "peter") 1

/-- Scenario-C registry: handlers `1` then `2`, in that order. -/
def regC : CommandRegistry Nat := register (register (mkCommandRegistry Nat "peter") 1) 2

/-- A valid device record. -/
def deviceLamp : SmartDevice :=
  { name := "Smart Lamp", device_id := "dev1", ip_address := "192.168.1.101",
    local_key := "key1", device_type := "light" }

/-- A valid settings record whose wake word is not the default. -/
def settingsJarvis : AssistantSettings :=
  { speech_timeout := 5, phrase_time_limit := 5, language := "id-ID",
    log_level := "INFO", screenshots_folder := "screenshots", wake_word := "jarvis" }

/-- A valid configuration aggregate with a non-default wake word and one
shortcut entry. -/
def cfgJarvis : Configuration :=
  { smart_devices := [deviceLamp], settings := settingsJarvis,
    application_shortcuts := [("notepad", "notepad.exe")] }

/-! ## Helper lemmas -/

/-- The `get_handler` loop returns `some h` exactly when `h` accepts the
text and every handler registered before `h` rejects it. -/
theorem findFirstHandler_eq_some_iff {H : Type} (canHandle : H → String → Bool)
    (a : String) (h : H) :
    ∀ l : List H, findFirstHandler canHandle l a = some h ↔
      canHandle h a = true ∧
        ∃ pre post, l = pre ++ h :: post ∧ ∀ g ∈ pre, canHandle g a = false := by
  intro l
  induction l with
  | nil =>
    simp only [findFirstHandler]
    constructor
    · intro hcontr; cases hcontr
    · rintro ⟨-, pre, post, hnil, -⟩
      exact absurd hnil (by simp)
  | cons c rest ih =>
    simp only [findFirstHandler]
    by_cases hc : canHandle c a = true
    · rw [if_pos hc]
      constructor
      · rintro hch
        injection hch with hch
        subst hch
        exact ⟨hc, [], rest, rfl, by simp⟩
      · rintro ⟨hh, pre, post, heq, hall⟩
        cases pre with
        | nil =>
          simp only [List.nil_append, List.cons.injEq] at heq
          rw [heq.1]
        | cons p ps =>
          simp only [List.cons_append, List.cons.injEq] at heq
          have : canHandle p a = false := hall p (by simp)
          rw [← heq.1] at this
          rw [hc] at this
          cases this
    · rw [if_neg hc]
      rw [ih]
      constructor
      · rintro ⟨hh, pre, post, heq, hall⟩
        refine ⟨hh, c :: pre, post, by rw [heq, List.cons_append], ?_⟩
        intro g hg
        rcases List.mem_cons.mp hg with hgc | hgp
        · subst hgc; exact Bool.eq_false_iff.mpr hc
        · exact hall g hgp
      · rintro ⟨hh, pre, post, heq, hall⟩
        cases pre with
        | nil =>
          simp only [List.nil_append, List.cons.injEq] at heq
          rw [← heq.1] at hh
          exact absurd hh hc
        | cons p ps =>
          simp only [List.cons_append, List.cons.injEq] at heq
          exact ⟨hh, ps, post, heq.2, fun g hg => hall g (by simp [hg])⟩

/-- The `get_handler` loop returns `none` when every handler rejects. -/
theorem findFirstHandler_eq_none {H : Type} (canHandle : H → String → Bool)
    (a : String) :
    ∀ l : List H, (∀ g ∈ l, canHandle g a = false) → findFirstHandler canHandle l a = none := by
  intro l
  induction l with
  | nil => intro _; rfl
  | cons c rest ih =>
    intro hall
    simp only [findFirstHandler]
    rw [if_neg (by simp [hall c (by simp)]), ih fun g hg => hall g (by simp [hg])]

/-- Unfolding of `remove_wake_word` with its local variable inlined. -/
theorem remove_wake_word_eq {H : Type} (r : CommandRegistry H) (command : String) :
    remove_wake_word r command =
      if pyStartsWith (pyStrip (pyLower command)) r.wake_word then
        pyStrip (pySliceFrom (pyStrip (pyLower command)) (pyLen r.wake_word))
      else
        pyStrip (pyLower command) := rfl

/-- A string starts with its own prefix. -/
theorem pyStartsWith_append (w t : String) : pyStartsWith (w ++ t) w = true := by
  unfold pyStartsWith
  rw [String.data_append, List.isPrefixOf_iff_prefix]
  exact List.prefix_append _ _

/-- Dropping `len w` characters from `w ++ t` leaves exactly `t`. -/
theorem pySliceFrom_append (w t : String) : pySliceFrom (w ++ t) (pyLen w) = t := by
  unfold pySliceFrom pyLen
  rw [String.data_append, List.drop_left]

/-- Stripping absorbs a leading space. -/
theorem pyStrip_space (t : String) : pyStrip (" " ++ t) = pyStrip t := by
  have h1 : (" " ++ t).data = ' ' :: t.data := by rw [String.data_append]; rfl
  unfold pyStrip
  rw [h1, List.dropWhile_cons, if_pos (by decide)]

/-- Two character lists that agree up to letter case. -/
def sameUpToCase : List Char → List Char → Bool
  | [], [] => true
  | a :: as, b :: bs => (Char.toLower a == Char.toLower b) && sameUpToCase as bs
  | _, _ => false

/-- Case-equivalent character lists have equal case foldings. -/
theorem sameUpToCase_map_toLower :
    ∀ l1 l2 : List Char, sameUpToCase l1 l2 = true →
      l1.map Char.toLower = l2.map Char.toLower := by
  intro l1
  induction l1 with
  | nil =>
    intro l2 h
    cases l2 with
    | nil => rfl
    | cons b bs => simp [sameUpToCase] at h
  | cons a as ih =>
    intro l2 h
    cases l2 with
    | nil => simp [sameUpToCase] at h
    | cons b bs =>
      simp only [sameUpToCase, Bool.and_eq_true, beq_iff_eq] at h
      simp only [List.map_cons, h.1]
      rw [ih bs h.2]

/-- A valid device record survives serialization and re-parsing. -/
theorem fromData_toData (d : SmartDevice)
    (h : ¬(d.name = "" ∨ d.device_id = "" ∨ d.ip_address = "" ∨ d.local_key = "")) :
    SmartDevice.fromData
      { name := some d.name, device_id := some d.device_id,
        ip_address := some d.ip_address, local_key := some d.local_key,
        device_type := some d.device_type } = .ok d := by
  obtain ⟨n, i, a, k, t⟩ := d
  simp only [SmartDevice.fromData, SmartDevice.init, Option.getD_some]
  rw [if_neg h]

/-- A list of valid device records survives serialization and
re-parsing entry by entry. -/
theorem mapM_fromData_toData (ds : List SmartDevice)
    (h : ∀ d ∈ ds, ¬(d.name = "" ∨ d.device_id = "" ∨ d.ip_address = "" ∨ d.local_key = "")) :
    (ds.map fun d =>
        (⟨some d.name, some d.device_id, some d.ip_address, some d.local_key,
          some d.device_type⟩ : DeviceData)).mapM SmartDevice.fromData =
      Except.ok ds := by
  induction ds with
  | nil => rfl
  | cons d rest ih =>
    rw [List.map_cons, List.mapM_cons, fromData_toData d (h d (by simp)),
      ih fun x hx => h x (by simp [hx])]
    rfl

/-- A valid settings record re-parses from its serialized form with the
wake word replaced by the default `"peter"` (the serialized form has no
wake-word key). -/
theorem settings_fromData_toData (s : AssistantSettings)
    (hto : ¬(s.speech_timeout ≤ 0 ∨ s.phrase_time_limit ≤ 0))
    (hll : s.log_level ∈ validLogLevels) :
    AssistantSettings.fromData
      { speech_timeout := some s.speech_timeout,
        phrase_time_limit := some s.phrase_time_limit,
        language := some s.language, log_level := some s.log_level,
        screenshots_folder := some s.screenshots_folder, wake_word := none } =
      .ok { s with wake_word := "peter" } := by
  obtain ⟨a, b, c, d, e, f⟩ := s
  simp only [AssistantSettings.fromData, AssistantSettings.init, Option.getD_some,
    Option.getD_none]
  rw [if_neg hto, if_neg fun hc => hc hll]

/-! ## Claim theorems -/

/-- C2: for every text whose case-folded, trimmed form does not start
with the configured wake word, `execute_command` fails with the
missing-wake-word `CommandExecutionError`; the result does not depend
on the registered handlers (`canHandle`, `exec` are arbitrary), so no
handler's `execute` is invoked. -/
theorem execute_command_missing_wake_word {H Ctx : Type} (canHandle : H → String → Bool)
    (exec : H → String → Option Ctx → Except PyExc String) (r : CommandRegistry H)
    (command : String) (context : Option Ctx)
    (hw : has_wake_word r command = false) :
    execute_command canHandle exec r command context =
      .error (.commandExecutionError (missingWakeWordMsg r.wake_word command)) := by
  simp [execute_command, hw]

/-- Witness for C2: scenario B, input `"buka youtube"` with wake word
`"peter"`. -/
theorem execute_command_missing_wake_word_witness :
    has_wake_word regP "buka youtube" = false ∧
    execute_command canAll execOk regP "buka youtube" none =
      .error (.commandExecutionError (missingWakeWordMsg regP.wake_word "buka youtube")) :=
  ⟨by decide,
   execute_command_missing_wake_word canAll execOk regP "buka youtube" none (by decide)⟩

/-- C3: when the wake word is present and the selected handler's
`execute` raises any exception `e`, `execute_command` re-raises the one
uniform `CommandExecutionError` shape whose message contains the
original message. -/
theorem execute_command_wraps_handler_failure {H Ctx : Type} (canHandle : H → String → Bool)
    (exec : H → String → Option Ctx → Except PyExc String) (r : CommandRegistry H)
    (command : String) (context : Option Ctx) (handler : H) (e : PyExc)
    (hw : has_wake_word r command = true)
    (hsel : get_handler canHandle r command = some handler)
    (hexec : exec handler (remove_wake_word r command) context = .error e) :
    execute_command canHandle exec r command context =
      .error (.commandExecutionError (failedExecMsg (PyExc.message e))) ∧
    ∃ pre post, failedExecMsg (PyExc.message e) = pre ++ PyExc.message e ++ post := by
  constructor
  · simp [execute_command, hw, hsel, hexec]
  · exact ⟨"Failed to execute command: ", "", by simp [failedExecMsg]⟩

/-- Witness for C3: a handler raising `"boom"` on `"peter test"`. -/
theorem execute_command_wraps_handler_failure_witness :
    execute_command canAll execBoom regOne "peter test" none =
      .error (.commandExecutionError (failedExecMsg (PyExc.message (.otherExc "boom")))) :=
  (execute_command_wraps_handler_failure canAll execBoom regOne "peter test" none 1
    (.otherExc "boom") (by decide) (by decide) rfl).1

/-- C6: `SmartDevice` construction raises a `ConfigurationError` iff at
least one of the four identity fields is empty, and succeeds (yielding
exactly the given fields) whenever all four are non-empty. -/
theorem smart_device_validation_iff (name device_id ip_address local_key device_type : String) :
    (SmartDevice.init name device_id ip_address local_key device_type =
        .error (.configurationError "All device fields are required") ↔
      (name = "" ∨ device_id = "" ∨ ip_address = "" ∨ local_key = "")) ∧
    (¬(name = "" ∨ device_id = "" ∨ ip_address = "" ∨ local_key = "") →
      SmartDevice.init name device_id ip_address local_key device_type =
        .ok { name := name, device_id := device_id, ip_address := ip_address,
              local_key := local_key, device_type := device_type }) := by
  unfold SmartDevice.init
  split <;> simp_all

/-- Witness for C6: an empty name fails, all-non-empty succeeds. -/
theorem smart_device_validation_iff_witness :
    SmartDevice.init "" "d" "i" "k" "outlet" =
      .error (.configurationError "All device fields are required") ∧
    SmartDevice.init "Lamp" "d" "i" "k" "outlet" =
      .ok { name := "Lamp", device_id := "d", ip_address := "i",
            local_key := "k", device_type := "outlet" } :=
  ⟨(smart_device_validation_iff "" "d" "i" "k" "outlet").1.mpr (Or.inl rfl),
   (smart_device_validation_iff "Lamp" "d" "i" "k" "outlet").2 (by decide)⟩

/-- Counterexample for C7 as stated: the constructor neither trims nor
rejects empty input — `" Peter "` is stored as the untrimmed
`" peter "`, and `""` is stored as the empty wake word. -/
theorem wake_word_normalization_cex :
    (mkCommandRegistry Nat " Peter ").wake_word = " peter " ∧
    pyStrip (mkCommandRegistry Nat " Peter ").wake_word ≠
      (mkCommandRegistry Nat " Peter ").wake_word ∧
    (mkCommandRegistry Nat "").wake_word = "" := by
  decide

/-- C7 (amended): the stored wake word is exactly the case-folded
(lowercased) constructor argument — possibly empty, not trimmed — and
`register`/`unregister` never change it. -/
theorem wake_word_lowercased_only {H : Type} [DecidableEq H] (w : String)
    (r : CommandRegistry H) (h : H) :
    (mkCommandRegistry H w).wake_word = pyLower w ∧
    (register r h).wake_word = r.wake_word ∧
    (unregister r h).wake_word = r.wake_word := by
  refine ⟨rfl, rfl, ?_⟩
  unfold unregister
  split <;> rfl

/-- C8: on a registry not containing `h`, `register h` then
`unregister h` restores the exact prior state, and `unregister` of the
absent `h` is a no-op. -/
theorem register_unregister_roundtrip {H : Type} [DecidableEq H]
    (r : CommandRegistry H) (h : H) (hnotin : h ∉ r.commands) :
    unregister (register r h) h = r ∧ unregister r h = r := by
  obtain ⟨cs, w⟩ := r
  simp only [CommandRegistry.mk.injEq] at *
  have herase : (cs ++ [h]).erase h = cs := by
    rw [List.erase_append_right _ hnotin, List.erase_cons_head]
    simp
  constructor
  · simp [unregister, register, herase]
  · simp [unregister, hnotin]

/-- Witness for C8: registry `[1, 2]`, handler `3`. -/
theorem register_unregister_roundtrip_witness :
    unregister (register regC 3) 3 = regC ∧ unregister regC 3 = regC :=
  register_unregister_roundtrip regC 3 (by decide)

/-- C9: the orchestrator's per-command unit of work returns normally on
every outcome of the wrapped registry call — any returned value and any
raised exception — so in particular on `execute_command`'s outcome for
every command string and every registry. -/
theorem process_command_safely_total (call : Except PyExc String) :
    processCommandSafely call = Except.ok () ∧
    ∀ (H Ctx : Type) (canHandle : H → String → Bool)
      (exec : H → String → Option Ctx → Except PyExc String)
      (r : CommandRegistry H) (command : String) (context : Option Ctx),
      processCommandSafely (execute_command canHandle exec r command context) =
        Except.ok () := by
  constructor
  · cases call with
    | ok v => rfl
    | error e => cases e <;> rfl
  · intro H Ctx canHandle exec r command context
    cases hc : execute_command canHandle exec r command context with
    | ok v => rfl
    | error e => cases e <;> rfl

/-- C1: with the wake word present, `get_handler` returns `some h`
exactly when `h` accepts the wake-word-stripped, trimmed, case-folded
remainder and every handler registered before `h` rejects it (so an
earlier match always shadows a later, more specific one); when no
registered handler accepts the remainder, `execute_command` fails with
the no-handler-found `CommandExecutionError`. -/
theorem first_match_selection {H Ctx : Type} (canHandle : H → String → Bool)
    (exec : H → String → Option Ctx → Except PyExc String) (r : CommandRegistry H)
    (command : String) (context : Option Ctx)
    (hw : has_wake_word r command = true) :
    (∀ h : H, get_handler canHandle r command = some h ↔
      canHandle h (remove_wake_word r command) = true ∧
        ∃ pre post, r.commands = pre ++ h :: post ∧
          ∀ g ∈ pre, canHandle g (remove_wake_word r command) = false) ∧
    ((∀ g ∈ r.commands, canHandle g (remove_wake_word r command) = false) →
      execute_command canHandle exec r command context =
        .error (.commandExecutionError (noHandlerMsg command))) := by
  constructor
  · intro h
    rw [get_handler, if_pos hw]
    exact findFirstHandler_eq_some_iff canHandle _ h r.commands
  · intro hall
    have hnone : get_handler canHandle r command = none := by
      rw [get_handler, if_pos hw]
      exact findFirstHandler_eq_none canHandle _ r.commands hall
    simp [execute_command, hw, hnone]

/-- Witness for C1: scenario C — handlers `[1, 2]` matching `"lampu"`
resp. `"lampu nyala"`, input `"peter nyalakan lampu nyala"` selects
handler `1`. -/
theorem first_match_selection_witness :
    get_handler canC regC "peter nyalakan lampu nyala" = some 1 :=
  ((first_match_selection canC execOk regC "peter nyalakan lampu nyala" none
      (by decide)).1 1).mpr
    ⟨by decide, [], [2], by decide, by decide⟩

/-- Counterexample for C4 as stated: `to_dict` emits no wake-word key,
so a configuration whose wake word is `"jarvis"` does not reload
field-for-field equal. -/
theorem config_roundtrip_cex :
    Configuration.from_dict (Configuration.to_dict cfgJarvis) ≠ Except.ok cfgJarvis := by
  decide

/-- C4 (amended): serializing a valid configuration and re-parsing it
restores the devices, the shortcuts and every settings field except the
wake word, which is reset to the default `"peter"`. -/
theorem config_roundtrip_amended (c : Configuration)
    (hdev : ∀ d ∈ c.smart_devices,
      ¬(d.name = "" ∨ d.device_id = "" ∨ d.ip_address = "" ∨ d.local_key = ""))
    (hto : ¬(c.settings.speech_timeout ≤ 0 ∨ c.settings.phrase_time_limit ≤ 0))
    (hll : c.settings.log_level ∈ validLogLevels) :
    Configuration.from_dict (Configuration.to_dict c) =
      Except.ok { c with settings := { c.settings with wake_word := "peter" } } := by
  obtain ⟨ds, s, sh⟩ := c
  simp only [Configuration.to_dict, Configuration.from_dict, Option.getD_some]
  rw [mapM_fromData_toData ds hdev, settings_fromData_toData s hto hll]
  rfl

/-- Witness for C4 (amended): the `"jarvis"` configuration reloads with
wake word `"peter"` and everything else intact. -/
theorem config_roundtrip_amended_witness :
    Configuration.from_dict (Configuration.to_dict cfgJarvis) =
      Except.ok { cfgJarvis with
        settings := { cfgJarvis.settings with wake_word := "peter" } } :=
  config_roundtrip_amended cfgJarvis (by decide) (by decide) (by decide)

/-- C5: `get_application_command` gives the same result on queries that
differ only in letter case. -/
theorem get_application_command_case_insensitive (config : Configuration) (q1 q2 : String)
    (h : sameUpToCase q1.data q2.data = true) :
    get_application_command config q1 = get_application_command config q2 := by
  have hl : pyLower q1 = pyLower q2 := by
    unfold pyLower
    exact congrArg String.mk (sameUpToCase_map_toLower _ _ h)
  unfold get_application_command
  rw [hl]

/-- Witness for C5: scenario D — with mapping
`[("notepad", "notepad.exe")]` the mixed-case query `"Notepad"` returns
`"notepad.exe"`. -/
theorem get_application_command_case_insensitive_witness :
    get_application_command cfgJarvis "Notepad" = some "notepad.exe" :=
  (get_application_command_case_insensitive cfgJarvis "Notepad" "notepad"
    (by decide)).trans (by decide)

/-- C10: the wake-word gate is a raw prefix test.  If the case-folded,
trimmed form of `s` is the wake word immediately followed by `t` (no
separator required), the gate passes, stripping removes exactly
`len(wake_word)` characters plus surrounding whitespace (leaving
`pyStrip t`), and any utterance whose case-folded trimmed form is the
wake word, a space, then `t` is stripped to the very same remainder. -/
theorem wake_word_gate_no_boundary {H : Type} (r : CommandRegistry H) (s t : String)
    (hsplit : pyStrip (pyLower s) = r.wake_word ++ t) :
    has_wake_word r s = true ∧
    remove_wake_word r s = pyStrip t ∧
    ∀ s', pyStrip (pyLower s') = r.wake_word ++ (" " ++ t) →
      remove_wake_word r s' = remove_wake_word r s := by
  have hw : has_wake_word r s = true := by
    unfold has_wake_word
    rw [hsplit]
    exact pyStartsWith_append _ _
  have hrm : remove_wake_word r s = pyStrip t := by
    rw [remove_wake_word_eq, hsplit, pyStartsWith_append, if_pos rfl, pySliceFrom_append]
  refine ⟨hw, hrm, ?_⟩
  intro s' hsplit'
  have hrm' : remove_wake_word r s' = pyStrip (" " ++ t) := by
    rw [remove_wake_word_eq, hsplit', pyStartsWith_append, if_pos rfl, pySliceFrom_append]
  rw [hrm', hrm, pyStrip_space]

/-- Witness for C10: wake word `"peter"`, run-together input
`"peterbuka youtube"` passes the gate, strips to `"buka youtube"`, and
is stripped identically to `"peter buka youtube"`. -/
theorem wake_word_gate_no_boundary_witness :
    has_wake_word regP "peterbuka youtube" = true ∧
    remove_wake_word regP "peterbuka youtube" = pyStrip "buka youtube" ∧
    remove_wake_word regP "peter buka youtube" = remove_wake_word regP "peterbuka youtube" := by
  have h := wake_word_gate_no_boundary regP "peterbuka youtube" "buka youtube" (by decide)
  exact ⟨h.1, h.2.1, h.2.2 "peter buka youtube" (by decide)⟩

end VoiceAssistant
